import Mathlib

/-!
Shallow embedding of the Agnes A2A protocol server (`src/server.ts`,
class `A2AServer`): the JSON-RPC task handlers (`tasks/send`, `tasks/get`,
`tasks/cancel`), agent resolution, the agent-card (discovery document)
generator, and the agent-registration step of `loadAgents`.

Modelling conventions:
- JavaScript objects used as string-keyed maps (`this.tasks`, `this.agents`)
  are association lists in insertion order; property assignment replaces the
  existing entry in place or appends a new one, exactly as JS objects do.
- `new Date().toISOString()` is an explicit `now : String` parameter.
- Asynchronous handler invocation is a total function returning a
  `HandlerOutcome`: a reply value, an error value, or a thrown exception
  (which also models a rejected promise).
- The `logger` field of the handler context (`console`) is omitted: it is a
  write-only side channel with no influence on state or responses.
-/

namespace Agnes

/-- JSON values, used for the serialized bodies the server produces
(agent cards, task records, RPC results). Object fields are kept in
insertion order, as `JSON.stringify` does. -/
inductive Json where
  | null
  | bool (b : Bool)
  | str (s : String)
  | num (n : Int)
  | arr (xs : List Json)
  | obj (kvs : List (String × Json))

/-- Keys of a JSON object (empty for non-objects). -/
def Json.keys : Json → List String
  | .obj kvs => kvs.map Prod.fst
  | _ => []

/-- Look up a field of a JSON object (first occurrence). -/
def Json.field : Json → String → Option Json
  | .obj kvs, k => (kvs.find? (fun kv => kv.1 = k)).map Prod.snd
  | _, _ => none

/-- Split a character list at every occurrence of a separator. -/
def splitChar (sep : Char) : List Char → List (List Char)
  | [] => [[]]
  | c :: cs =>
    let r := splitChar sep cs
    if c = sep then [] :: r
    else match r with
      | [] => [[c]]
      | g :: gs => (c :: g) :: gs

/-- JavaScript `s.split(sep)` for a one-character separator. -/
def jsSplit (s : String) (sep : Char) : List String :=
  (splitChar sep s.data).map (fun cs => String.mk cs)

/-- Delete the first occurrence of `pat` from a character list. -/
def stripFirst (pat : List Char) : List Char → List Char
  | [] => []
  | c :: cs =>
      if pat.isPrefixOf (c :: cs) then (c :: cs).drop pat.length
      else c :: stripFirst pat cs

/-- First-occurrence substring replacement by the empty string: the
semantics of JavaScript `s.replace(pat, '')` with a string pattern,
used as `id.replace('agent://', '')` throughout the server. -/
def replaceFirst (s pat : String) : String :=
  String.mk (stripFirst pat.data s.data)

/-- A part of a message: `{ type: 'text' | 'data' | 'file', text?: string, ... }`
(`src/types/agent.ts`). Only the fields the server reads are modelled. -/
structure MessagePart where
  type : String
  text : Option String := none
deriving DecidableEq

/-- A protocol message: role plus ordered parts (`src/types/agent.ts`). -/
structure Message where
  role : String
  parts : List MessagePart
deriving DecidableEq

/-- The task lifecycle states, exactly the seven-member union in the
`TaskStorage` interface of `src/server.ts`. -/
inductive TaskState where
  | submitted
  | working
  | inputRequired
  | completed
  | canceled
  | failed
  | unknown
deriving DecidableEq

/-- A task's status: state plus ISO timestamp. -/
structure TaskStatus where
  state : TaskState
  timestamp : String
deriving DecidableEq

/-- A stored task record (`TaskStorage` in `src/server.ts`). `artifacts`
is declared by the interface but never assigned by the server. -/
structure Task where
  id : String
  agentId : String
  sessionId : Option String := none
  status : TaskStatus
  history : List Message := []
  artifacts : Option (List Json) := none

/-- Capability flags of an agent (all optional in the source). -/
structure Capabilities where
  streaming : Option Bool := none
  pushNotifications : Option Bool := none
  stateTransitionHistory : Option Bool := none

/-- Authentication declaration of an agent: scheme names plus credentials
(the card generator never echoes the credentials). -/
structure Authentication where
  schemes : List String
  credentials : Option String := none

/-- Outcome of awaiting an agent's `handlers.send`: a reply message
(`{ message }`), a handler-reported error value (`{ error }`), or a thrown
exception / rejected promise carrying its message. -/
inductive HandlerOutcome where
  | reply (message : Message)
  | errorValue (error : String)
  | thrown (message : String)

/-- The simplified request passed to a handler: `{ message }`. -/
structure SendRequest where
  message : Message

/-- The context the server passes to a handler (`src/server.ts`,
`handleTaskSend`), minus the `console` logger. -/
structure AgentContext where
  taskId : String
  agentId : String
  sessionId : Option String := none

/-- An agent descriptor as consumed by `src/server.ts`: the metadata read
by `generateAgentCard` plus the `handlers.send` capability. `provider`
and `skills` are passed through to the card verbatim, so they are kept
as opaque JSON. -/
structure Agent where
  id : String
  name : String
  description : Option String := none
  version : Option String := none
  provider : Option Json := none
  documentationUrl : Option String := none
  capabilities : Option Capabilities := none
  authentication : Option Authentication := none
  defaultInputModes : Option (List String) := none
  defaultOutputModes : Option (List String) := none
  skills : Option (List Json) := none
  handlersSend : SendRequest → AgentContext → HandlerOutcome

/-- The agent registry `this.agents`: identifier → descriptor, in
insertion order. -/
abbrev AgentRegistry := List (String × Agent)

/-- The task store `this.tasks`: task identifier → record, in insertion
order. -/
abbrev TaskStore := List (String × Task)

/-- Reading `m[k]` on a JS object modelled as an association list. -/
def assocGet {α : Type} : List (String × α) → String → Option α
  | [], _ => none
  | (k, v) :: rest, key => if k = key then some v else assocGet rest key

/-- Writing `m[k] = v` on a JS object: replace the existing entry in
place, or append a new one. -/
def assocSet {α : Type} : List (String × α) → String → α → List (String × α)
  | [], key, v => [(key, v)]
  | (k, w) :: rest, key, v =>
      if k = key then (key, v) :: rest else (k, w) :: assocSet rest key v

/-- In-place mutation `f` of the entry at `key` (as `m[key].field = ...`). -/
def assocModify {α : Type} : List (String × α) → String → (α → α) → List (String × α)
  | [], _, _ => []
  | (k, v) :: rest, key, f =>
      if k = key then (k, f v) :: assocModify rest key f
      else (k, v) :: assocModify rest key f

/-- JSON-RPC request id: string, number, or null. -/
inductive RpcId where
  | str (s : String)
  | num (n : Int)
  | null
deriving DecidableEq

/-- A JSON-RPC error object (`data` is never supplied by the server's
call sites of `createErrorResponse`). -/
structure RpcError where
  code : Int
  message : String

/-- A JSON-RPC response: request id plus `result` or `error` (the
handlers set exactly one of the two). `jsonrpc: '2.0'` is implicit. -/
structure JsonRpcResponse where
  id : RpcId
  result : Option Json := none
  error : Option RpcError := none

/-- Error codes (`ErrorCodes` in `src/server.ts`). -/
def PARSE_ERROR : Int := -32700
def INVALID_REQUEST : Int := -32600
def METHOD_NOT_FOUND : Int := -32601
def INVALID_PARAMS : Int := -32602
def INTERNAL_ERROR : Int := -32603
def TASK_NOT_FOUND : Int := -32001
def TASK_NOT_CANCELABLE : Int := -32002
def PUSH_NOTIFICATION_NOT_SUPPORTED : Int := -32003
def UNSUPPORTED_OPERATION : Int := -32004

/-- `createErrorResponse` of `src/server.ts`. -/
def createErrorResponse (id : RpcId) (code : Int) (message : String) :
    JsonRpcResponse :=
  { id := id, error := some { code := code, message := message } }

/-- Render a `TaskState` as its wire string. -/
def TaskState.toWire : TaskState → String
  | .submitted => "submitted"
  | .working => "working"
  | .inputRequired => "input-required"
  | .completed => "completed"
  | .canceled => "canceled"
  | .failed => "failed"
  | .unknown => "unknown"

/-- Serialize a task status. -/
def statusToJson (st : TaskStatus) : Json :=
  Json.obj [("state", Json.str st.state.toWire), ("timestamp", Json.str st.timestamp)]

/-- Serialize a message part; an absent `text` property is dropped, as
`JSON.stringify` drops `undefined`-valued properties. -/
def partToJson (p : MessagePart) : Json :=
  Json.obj ([("type", Json.str p.type)] ++
    (match p.text with
     | none => []
     | some t => [("text", Json.str t)]))

/-- Serialize a message. -/
def messageToJson (m : Message) : Json :=
  Json.obj [("role", Json.str m.role), ("parts", Json.arr (m.parts.map partToJson))]

/-- Serialize a stored task record, dropping absent optional properties
as `JSON.stringify` does. -/
def taskToJson (t : Task) : Json :=
  Json.obj ([("id", Json.str t.id), ("agentId", Json.str t.agentId)] ++
    (match t.sessionId with
     | none => []
     | some s => [("sessionId", Json.str s)]) ++
    [("status", statusToJson t.status),
     ("history", Json.arr (t.history.map messageToJson))] ++
    (match t.artifacts with
     | none => []
     | some a => [("artifacts", Json.arr a)]))

/-- The agent-card generator (`generateAgentCard` in `src/server.ts`):
given the configured base URL and an agent descriptor, produce the
discovery document. A pure function of its two arguments. -/
def generateAgentCard (baseUrl : String) (agent : Agent) : Json :=
  let agentIdentifier := replaceFirst agent.id "agent://"
  let url := if baseUrl = "/" then "/" ++ agentIdentifier
             else baseUrl ++ "/" ++ agentIdentifier
  Json.obj [
    ("name", Json.str agent.name),
    ("description", match agent.description with
      | none => Json.null
      | some d => Json.str d),
    ("url", Json.str url),
    ("version", Json.str (agent.version.getD "1.0.0")),
    ("provider", agent.provider.getD Json.null),
    ("documentationUrl", match agent.documentationUrl with
      | none => Json.null
      | some d => Json.str d),
    ("capabilities", Json.obj [
      ("streaming", Json.bool ((agent.capabilities.bind Capabilities.streaming).getD false)),
      ("pushNotifications", Json.bool ((agent.capabilities.bind Capabilities.pushNotifications).getD false)),
      ("stateTransitionHistory", Json.bool ((agent.capabilities.bind Capabilities.stateTransitionHistory).getD false))]),
    ("authentication", match agent.authentication with
      | none => Json.null
      | some a => Json.obj [
          ("schemes", Json.arr (a.schemes.map Json.str)),
          ("credentials", Json.null)]),
    ("defaultInputModes", Json.arr ((agent.defaultInputModes.getD ["text"]).map Json.str)),
    ("defaultOutputModes", Json.arr ((agent.defaultOutputModes.getD ["text"]).map Json.str)),
    ("skills", Json.arr (agent.skills.getD []))]

/-- JavaScript truthiness check for an optional string: absent or empty
is falsy. -/
def strFalsy : Option String → Bool
  | none => true
  | some s => s = ""

/-- Parameters of a `tasks/send` call as the handler reads them from the
untyped `params` record: each field individually possibly absent. -/
structure TaskSendParams where
  id : Option String := none
  message : Option Message := none
  sessionId : Option String := none

/-- Parameters of `tasks/get` / `tasks/cancel`: the task identifier. -/
structure TaskIdParams where
  id : Option String := none

/-- The message of the TypeError raised by reading `.text` off
`parts[0]` when the reply's parts array is empty. -/
def partsTextTypeError : String :=
  "Cannot read properties of undefined (reading 'text')"

/-- The catch block of `handleTaskSend`: if the task exists, mark it
failed with a fresh timestamp. -/
def setFailedIfPresent (tasks : TaskStore) (taskId now : String) : TaskStore :=
  match assocGet tasks taskId with
  | none => tasks
  | some _ =>
      assocModify tasks taskId (fun t => { t with status := ⟨.failed, now⟩ })

/-- The fresh task record created by `handleTaskSend` for an unseen
identifier: state `submitted`, owned by the resolved agent, empty
history. -/
def freshTask (taskId agentId : String) (sessionId : Option String)
    (now : String) : Task :=
  { id := taskId, agentId := agentId, sessionId := sessionId,
    status := ⟨.submitted, now⟩, history := [] }

/-- Steps of `handleTaskSend` that precede the handler invocation
(`src/server.ts` lines 391-417): create the task if absent, set its
status to `working`, and append the inbound message to its history. -/
def sendPrepare (tasks : TaskStore) (taskId : String) (agentId : String)
    (sessionId : Option String) (message : Message) (now : String) : TaskStore :=
  let tasksA :=
    match assocGet tasks taskId with
    | none => assocSet tasks taskId (freshTask taskId agentId sessionId now)
    | some _ => tasks
  let tasksB := assocModify tasksA taskId
    (fun t => { t with status := ⟨.working, now⟩ })
  assocModify tasksB taskId (fun t => { t with history := t.history ++ [message] })

/-- The success result object of `handleTaskSend`: task id, current
status, full history, and a synthesized artifact wrapping `parts[0].text`
of the reply. An absent `text` is dropped in serialization. -/
def sendResult (taskId : String) (t : Task) (firstPart : MessagePart) : Json :=
  Json.obj [
    ("id", Json.str taskId),
    ("status", statusToJson t.status),
    ("history", Json.arr (t.history.map messageToJson)),
    ("artifacts", Json.arr [Json.obj [("parts", Json.arr [Json.obj
      ([("type", Json.str "text")] ++
       (match firstPart.text with
        | none => []
        | some s => [("text", Json.str s)]))])]])]

/-- The `tasks/send` method handler (`handleTaskSend` in `src/server.ts`).
Returns the JSON-RPC response together with the task store after the
call; a thrown exception (from the handler, or from dereferencing
`parts[0]` of an empty reply) is caught by the handler's own try/catch
and never escapes. -/
def handleTaskSend (now : String) (tasks : TaskStore) (reqId : RpcId)
    (agent : Agent) (params : Option TaskSendParams) :
    JsonRpcResponse × TaskStore :=
  match params with
  | none => (createErrorResponse reqId INVALID_PARAMS "Missing required parameters", tasks)
  | some p =>
    if strFalsy p.id ∨ p.message = none then
      (createErrorResponse reqId INVALID_PARAMS "Missing required parameters", tasks)
    else
      match p.id, p.message with
      | some taskId, some message =>
        let tasksP := sendPrepare tasks taskId agent.id p.sessionId message now
        let context : AgentContext :=
          { taskId := taskId, agentId := agent.id, sessionId := p.sessionId }
        match agent.handlersSend { message := message } context with
        | .reply respMsg =>
          let tasksC := assocModify tasksP taskId
            (fun t => { t with status := ⟨.completed, now⟩ })
          let tasksD := assocModify tasksC taskId
            (fun t => { t with history := t.history ++ [respMsg] })
          (match respMsg.parts with
           | [] =>
             -- `response.message.parts[0]` is undefined; reading `.text`
             -- throws, and the catch block marks the task failed.
             (createErrorResponse reqId INTERNAL_ERROR
               ("Internal error: " ++ partsTextTypeError),
              setFailedIfPresent tasksD taskId now)
           | firstPart :: _ =>
             match assocGet tasksD taskId with
             | some t => ({ id := reqId, result := some (sendResult taskId t firstPart) }, tasksD)
             | none =>
               -- unreachable: the entry was created above; reading a
               -- property of undefined would throw into the catch block
               (createErrorResponse reqId INTERNAL_ERROR
                 ("Internal error: " ++ partsTextTypeError),
                setFailedIfPresent tasksD taskId now))
        | .errorValue e =>
          let tasksC := assocModify tasksP taskId
            (fun t => { t with status := ⟨.failed, now⟩ })
          (createErrorResponse reqId INTERNAL_ERROR e, tasksC)
        | .thrown m =>
          (createErrorResponse reqId INTERNAL_ERROR ("Internal error: " ++ m),
           setFailedIfPresent tasksP taskId now)
      | _, _ =>
        (createErrorResponse reqId INVALID_PARAMS "Missing required parameters", tasks)

/-- The `tasks/get` method handler (`handleTaskGet` in `src/server.ts`).
Read-only on the store (its "ensure history" assignment is the identity
here, histories being always-present lists). -/
def handleTaskGet (tasks : TaskStore) (reqId : RpcId)
    (params : Option TaskIdParams) : JsonRpcResponse × TaskStore :=
  match params with
  | none => (createErrorResponse reqId INVALID_PARAMS "Missing task ID", tasks)
  | some p =>
    if strFalsy p.id then
      (createErrorResponse reqId INVALID_PARAMS "Missing task ID", tasks)
    else
      match p.id with
      | some taskId =>
        (match assocGet tasks taskId with
         | none => (createErrorResponse reqId TASK_NOT_FOUND "Task not found", tasks)
         | some t => ({ id := reqId, result := some (taskToJson t) }, tasks))
      | none => (createErrorResponse reqId INVALID_PARAMS "Missing task ID", tasks)

/-- The `tasks/cancel` method handler (`handleTaskCancel` in
`src/server.ts`). -/
def handleTaskCancel (now : String) (tasks : TaskStore) (reqId : RpcId)
    (params : Option TaskIdParams) : JsonRpcResponse × TaskStore :=
  match params with
  | none => (createErrorResponse reqId INVALID_PARAMS "Missing task ID", tasks)
  | some p =>
    if strFalsy p.id then
      (createErrorResponse reqId INVALID_PARAMS "Missing task ID", tasks)
    else
      match p.id with
      | some taskId =>
        (match assocGet tasks taskId with
         | none => (createErrorResponse reqId TASK_NOT_FOUND "Task not found", tasks)
         | some t =>
           if t.status.state = .submitted ∨ t.status.state = .working then
             let canceled : Task := { t with status := ⟨.canceled, now⟩ }
             ({ id := reqId, result := some (taskToJson canceled) },
              assocModify tasks taskId (fun u => { u with status := ⟨.canceled, now⟩ }))
           else
             (createErrorResponse reqId TASK_NOT_CANCELABLE "Task cannot be canceled", tasks))
      | none => (createErrorResponse reqId INVALID_PARAMS "Missing task ID", tasks)

/-- Path segments of a URL: `url.split('/').filter(Boolean)`. -/
def pathParts (url : String) : List String :=
  (jsSplit url '/').filter (fun s => s ≠ "")

/-- `isAgentEndpoint` of `src/server.ts`: does the first path segment
match some registered identifier stripped of its `agent://` prefix? -/
def isAgentEndpoint (agents : AgentRegistry) (url : String) : Bool :=
  match pathParts url with
  | [] => false
  | seg :: _ =>
      (agents.map Prod.fst).any (fun id => replaceFirst id "agent://" = seg)

/-- The URL-path extraction step of `handleRpcRequest` (`src/server.ts`
lines 223-237): the first registered identifier whose scheme-stripped
form equals the first path segment, when the URL is an agent endpoint. -/
def extractAgentId (agents : AgentRegistry) (url : String) : Option String :=
  if isAgentEndpoint agents url then
    match pathParts url with
    | [] => none
    | seg :: _ =>
        (agents.map Prod.fst).find? (fun id => replaceFirst id "agent://" = seg)
  else none

/-- JavaScript `a || b` on optional strings: empty or absent falls
through. -/
def orFalsy (a b : Option String) : Option String :=
  if strFalsy a then b else a

/-- Result of the agent-resolution slice of `handleRpcRequest`
(`src/server.ts` lines 219-265): either a resolved agent, or the
"No agents available" failure, or the "Agent not found" failure (both
reported with code `METHOD_NOT_FOUND` and HTTP 404). -/
inductive ResolveResult where
  | ok (agent : Agent)
  | noAgents
  | notFound

/-- Agent resolution for an RPC call (`src/server.ts` lines 219-265):
URL path segment, else `x-agent-id` header, else first registered key;
then `this.agents[agentId] || Object.values(this.agents)[0]`. -/
def resolveAgent (agents : AgentRegistry) (url : String)
    (headerAgentId : Option String) : ResolveResult :=
  let extracted := extractAgentId agents url
  let agentId := orFalsy extracted (orFalsy headerAgentId ((agents.map Prod.fst).head?))
  if strFalsy agentId then .noAgents
  else
    match agentId with
    | none => .noAgents
    | some aid =>
      match assocGet agents aid with
      | some agent => .ok agent
      | none =>
        match agents.head? with
        | some kv => .ok kv.2
        | none => .notFound

/-- Match a URL against the agent-card route regex
`^\/([^\/]+)\/\.well-known\/agent\.json$`, returning the captured
agent identifier segment. -/
def matchAgentCardPath (url : String) : Option String :=
  match jsSplit url '/' with
  | ["", seg, wk, aj] =>
      if seg ≠ "" ∧ wk = ".well-known" ∧ aj = "agent.json" then some seg else none
  | _ => none

/-- An HTTP reply: status code and JSON body. -/
structure HttpReply where
  status : Nat
  body : Json

/-- The discovery endpoint (`handleAgentCard` in `src/server.ts`):
`/.well-known/agent.json` serves the first registered agent's card;
`/{agentId}/.well-known/agent.json` looks up `agent://` + segment
(both of the source's two lookups use the prefixed key); anything else
is 404. -/
def handleAgentCard (agents : AgentRegistry) (baseUrl : String)
    (url : String) : HttpReply :=
  if url = "/.well-known/agent.json" then
    match agents.head? with
    | none => ⟨404, Json.obj [("error", Json.str "No agents found")]⟩
    | some kv => ⟨200, generateAgentCard baseUrl kv.2⟩
  else
    match matchAgentCardPath url with
    | some seg =>
      (match assocGet agents ("agent://" ++ seg) with
       | none =>
         (match assocGet agents ("agent://" ++ seg) with
          | none => ⟨404, Json.obj [("error", Json.str "Agent not found")]⟩
          | some agent => ⟨200, generateAgentCard baseUrl agent⟩)
       | some agent => ⟨200, generateAgentCard baseUrl agent⟩)
    | none => ⟨404, Json.obj [("error", Json.str "Not Found")]⟩

/-- The registration step of `loadAgents` (`src/server.ts` lines 566-585):
each discovered agent with a truthy `id` (and a `send` handler, always
present in this model) is written into the registry with
`this.agents[agent.id] = agent`, silently overwriting any existing
entry with the same identifier. -/
def loadAgentsFrom (reg : AgentRegistry) (found : List Agent) : AgentRegistry :=
  found.foldl (fun r a => if a.id = "" then r else assocSet r a.id a) reg

/-- One RPC operation against the task store, as dispatched by
`handleRpcRequest`'s method switch (with the target agent already
resolved). -/
inductive ServerOp where
  | send (now : String) (reqId : RpcId) (agent : Agent) (params : Option TaskSendParams)
  | get (reqId : RpcId) (params : Option TaskIdParams)
  | cancel (now : String) (reqId : RpcId) (params : Option TaskIdParams)

/-- Apply one operation to the task store. -/
def applyOp (tasks : TaskStore) : ServerOp → JsonRpcResponse × TaskStore
  | .send now reqId agent params => handleTaskSend now tasks reqId agent params
  | .get reqId params => handleTaskGet tasks reqId params
  | .cancel now reqId params => handleTaskCancel now tasks reqId params

/-- Run a sequence of operations from a starting store. -/
def runOps (tasks : TaskStore) (ops : List ServerOp) : TaskStore :=
  ops.foldl (fun s op => (applyOp s op).2) tasks

/-- A text message part. -/
def textPart (s : String) : MessagePart := { type := "text", text := some s }

/-- A one-part user message. -/
def userMsg (s : String) : Message := { role := "user", parts := [textPart s] }

/-- A one-part agent reply message. -/
def agentMsg (s : String) : Message := { role := "agent", parts := [textPart s] }

/-- A concrete greeting agent whose handler always replies with a fixed
one-part text message (the shape of the repository's hello agent). -/
def helloAgent : Agent :=
  { id := "agent://hello", name := "Hello Agent",
    description := some "A simple agent that responds with a greeting",
    handlersSend := fun _ _ => .reply (agentMsg "Hello there!") }

/-- A concrete agent whose handler replies with a message that has an
empty parts array. -/
def emptyReplyAgent : Agent :=
  { id := "agent://empty", name := "Empty Agent",
    handlersSend := fun _ _ => .reply { role := "agent", parts := [] } }

/-- A concrete agent whose handler reports an error value. -/
def errorAgent : Agent :=
  { id := "agent://error-agent", name := "Error Agent",
    handlersSend := fun _ _ => .errorValue "handler says no" }

/-- A concrete agent whose handler throws. -/
def throwAgent : Agent :=
  { id := "agent://throw-agent", name := "Throw Agent",
    handlersSend := fun _ _ => .thrown "kaboom" }

/-- A concrete agent named A, registered under a bare identifier in the
C8 scenario. -/
def agentA : Agent :=
  { id := "a", name := "Agent A", handlersSend := fun _ _ => .reply (agentMsg "A") }

/-- A concrete agent named B, registered under a bare identifier in the
C8 scenario. -/
def agentB : Agent :=
  { id := "b", name := "Agent B", handlersSend := fun _ _ => .reply (agentMsg "B") }

/-- Agent A registered under a scheme-prefixed identifier. -/
def agentA' : Agent :=
  { id := "agent://a", name := "Agent A", handlersSend := fun _ _ => .reply (agentMsg "A") }

/-- Agent B registered under a scheme-prefixed identifier. -/
def agentB' : Agent :=
  { id := "agent://b", name := "Agent B", handlersSend := fun _ _ => .reply (agentMsg "B") }

/-- Valid `tasks/send` parameters for task `t1` carrying the message
`hi`. -/
def sendParamsT1 : TaskSendParams := { id := some "t1", message := some (userMsg "hi") }

/-- The state of a stored task, if present. -/
def taskState (tasks : TaskStore) (taskId : String) : Option TaskState :=
  (assocGet tasks taskId).map (fun t => t.status.state)

/-- The history of a stored task, if present. -/
def taskHistory (tasks : TaskStore) (taskId : String) : Option (List Message) :=
  (assocGet tasks taskId).map (fun t => t.history)

section Lemmas

theorem assocGet_set_self {α : Type} (m : List (String × α)) (k : String) (v : α) :
    assocGet (assocSet m k v) k = some v := by
  induction m with
  | nil => simp [assocSet, assocGet]
  | cons head rest ih =>
    obtain ⟨k', w⟩ := head
    by_cases h : k' = k <;> simp [assocSet, assocGet, h, ih]

theorem assocGet_set_ne {α : Type} (m : List (String × α)) (k key : String) (v : α)
    (h : key ≠ k) : assocGet (assocSet m k v) key = assocGet m key := by
  induction m with
  | nil => simp [assocSet, assocGet, Ne.symm h]
  | cons head rest ih =>
    obtain ⟨k', w⟩ := head
    by_cases hk : k' = k
    · subst hk
      simp [assocSet, assocGet, Ne.symm h]
    · simp only [assocSet, if_neg hk, assocGet]
      by_cases hkey : k' = key <;> simp [hkey, ih]

theorem assocGet_modify_self {α : Type} (m : List (String × α)) (k : String)
    (f : α → α) : assocGet (assocModify m k f) k = (assocGet m k).map f := by
  induction m with
  | nil => simp [assocModify, assocGet]
  | cons head rest ih =>
    obtain ⟨k', w⟩ := head
    by_cases h : k' = k <;> simp [assocModify, assocGet, h, ih]

theorem assocGet_modify_ne {α : Type} (m : List (String × α)) (k key : String)
    (f : α → α) (h : key ≠ k) :
    assocGet (assocModify m k f) key = assocGet m key := by
  induction m with
  | nil => simp [assocModify, assocGet]
  | cons head rest ih =>
    obtain ⟨k', w⟩ := head
    by_cases hk : k' = k
    · subst hk
      simp [assocModify, assocGet, Ne.symm h, ih]
    · simp only [assocModify, if_neg hk, assocGet]
      by_cases hkey : k' = key <;> simp [hkey, ih]

/-- The task visible under `taskId` right after `sendPrepare`: the fresh
record (already moved to `working`, inbound message appended) for an
unseen identifier, or the existing record moved to `working` with the
inbound message appended. -/
theorem sendPrepare_get_self (tasks : TaskStore) (tid aid : String)
    (sid : Option String) (msg : Message) (now : String) :
    assocGet (sendPrepare tasks tid aid sid msg now) tid =
      some (match assocGet tasks tid with
        | none =>
            { id := tid, agentId := aid, sessionId := sid,
              status := ⟨.working, now⟩, history := [msg], artifacts := none }
        | some t =>
            { t with status := ⟨.working, now⟩, history := t.history ++ [msg] }) := by
  cases h : assocGet tasks tid with
  | none =>
    simp [sendPrepare, h, freshTask, assocGet_set_self, assocGet_modify_self]
  | some t =>
    simp [sendPrepare, h, assocGet_modify_self]

/-- `sendPrepare` leaves every other task untouched. -/
theorem sendPrepare_get_ne (tasks : TaskStore) (tid aid : String)
    (sid : Option String) (msg : Message) (now key : String) (h : key ≠ tid) :
    assocGet (sendPrepare tasks tid aid sid msg now) key = assocGet tasks key := by
  cases hg : assocGet tasks tid with
  | none => simp [sendPrepare, hg, assocGet_modify_ne _ _ _ _ h, assocGet_set_ne _ _ _ _ h]
  | some t => simp [sendPrepare, hg, assocGet_modify_ne _ _ _ _ h]

/-- `tasks/get` never mutates the task store. -/
theorem handleTaskGet_snd (tasks : TaskStore) (reqId : RpcId)
    (params : Option TaskIdParams) :
    (handleTaskGet tasks reqId params).2 = tasks := by
  cases params with
  | none => rfl
  | some p =>
    obtain ⟨pid⟩ := p
    by_cases h : strFalsy pid
    · simp [handleTaskGet, h]
    · cases pid with
      | none => simp [handleTaskGet, h]
      | some taskId =>
        cases hg : assocGet tasks taskId <;> simp [handleTaskGet, h, hg]

/-- The five lifecycle values the handlers ever write into a task's
status. -/
abbrev stateOk (t : Task) : Prop :=
  t.status.state ∈ [TaskState.submitted, .working, .completed, .canceled, .failed]

/-- Every task of the store has one of the five written states. -/
abbrev StoreOk (s : TaskStore) : Prop := ∀ kv ∈ s, stateOk kv.2

theorem storeOk_set {m : TaskStore} {k : String} {v : Task}
    (hm : StoreOk m) (hv : stateOk v) : StoreOk (assocSet m k v) := by
  induction m with
  | nil => simpa [assocSet, StoreOk] using hv
  | cons head rest ih =>
    obtain ⟨k', w⟩ := head
    have hrest : StoreOk rest := fun kv hkv => hm kv (List.mem_cons_of_mem _ hkv)
    by_cases h : k' = k
    · intro kv hkv
      simp only [assocSet, if_pos h, List.mem_cons] at hkv
      rcases hkv with hkv | hkv
      · simpa [hkv] using hv
      · exact hm kv (List.mem_cons_of_mem _ hkv)
    · intro kv hkv
      simp only [assocSet, if_neg h, List.mem_cons] at hkv
      rcases hkv with hkv | hkv
      · exact hm kv (by simp [hkv])
      · exact ih hrest kv hkv

theorem storeOk_modify {m : TaskStore} {k : String} {f : Task → Task}
    (hm : StoreOk m) (hf : ∀ t, stateOk t → stateOk (f t)) :
    StoreOk (assocModify m k f) := by
  induction m with
  | nil => intro kv hkv; simp [assocModify] at hkv
  | cons head rest ih =>
    obtain ⟨k', w⟩ := head
    have hrest : StoreOk rest := fun kv hkv => hm kv (List.mem_cons_of_mem _ hkv)
    have hw : stateOk w := hm (k', w) (by simp)
    intro kv hkv
    by_cases h : k' = k
    · simp only [assocModify, if_pos h, List.mem_cons] at hkv
      rcases hkv with hkv | hkv
      · simpa [hkv] using hf w hw
      · exact ih hrest kv hkv
    · simp only [assocModify, if_neg h, List.mem_cons] at hkv
      rcases hkv with hkv | hkv
      · simpa [hkv] using hw
      · exact ih hrest kv hkv

theorem storeOk_sendPrepare {tasks : TaskStore} (hm : StoreOk tasks)
    (tid aid : String) (sid : Option String) (msg : Message) (now : String) :
    StoreOk (sendPrepare tasks tid aid sid msg now) := by
  have hA : StoreOk (match assocGet tasks tid with
      | none => assocSet tasks tid (freshTask tid aid sid now)
      | some _ => tasks) := by
    cases assocGet tasks tid with
    | none => exact storeOk_set hm (by simp [freshTask, stateOk])
    | some _ => exact hm
  exact storeOk_modify (storeOk_modify hA (fun t _ => by simp [stateOk]))
    (fun t ht => ht)

theorem storeOk_setFailed {tasks : TaskStore} (hm : StoreOk tasks)
    (tid now : String) : StoreOk (setFailedIfPresent tasks tid now) := by
  unfold setFailedIfPresent
  cases assocGet tasks tid with
  | none => exact hm
  | some _ => exact storeOk_modify hm (fun t _ => by simp [stateOk])

theorem storeOk_handleTaskSend {tasks : TaskStore} (hm : StoreOk tasks)
    (now : String) (reqId : RpcId) (agent : Agent)
    (params : Option TaskSendParams) :
    StoreOk (handleTaskSend now tasks reqId agent params).2 := by
  cases params with
  | none => exact hm
  | some p =>
    obtain ⟨pid, pmsg, psid⟩ := p
    by_cases hbad : strFalsy pid ∨ pmsg = none
    · simpa [handleTaskSend, hbad] using hm
    · cases pid with
      | none => simp [strFalsy] at hbad
      | some tid =>
        cases pmsg with
        | none => simp at hbad
        | some msg =>
          have hP : StoreOk (sendPrepare tasks tid agent.id psid msg now) :=
            storeOk_sendPrepare hm tid agent.id psid msg now
          simp only [handleTaskSend, if_neg hbad]
          cases agent.handlersSend { message := msg }
              { taskId := tid, agentId := agent.id, sessionId := psid } with
          | reply respMsg =>
            dsimp only
            have hD : StoreOk (assocModify (assocModify
                (sendPrepare tasks tid agent.id psid msg now) tid
                (fun t => { t with status := ⟨.completed, now⟩ })) tid
                (fun t => { t with history := t.history ++ [respMsg] })) :=
              storeOk_modify (storeOk_modify hP (fun t _ => by simp [stateOk]))
                (fun t ht => ht)
            cases respMsg.parts with
            | nil => exact storeOk_setFailed hD tid now
            | cons firstPart restParts =>
              dsimp only
              cases assocGet (assocModify (assocModify
                  (sendPrepare tasks tid agent.id psid msg now) tid
                  (fun t => { t with status := ⟨.completed, now⟩ })) tid
                  (fun t => { t with history := t.history ++ [respMsg] })) tid with
              | none => exact storeOk_setFailed hD tid now
              | some t => exact hD
          | errorValue e =>
            dsimp only
            exact storeOk_modify hP (fun t _ => by simp [stateOk])
          | thrown m =>
            dsimp only
            exact storeOk_setFailed hP tid now

theorem storeOk_handleTaskCancel {tasks : TaskStore} (hm : StoreOk tasks)
    (now : String) (reqId : RpcId) (params : Option TaskIdParams) :
    StoreOk (handleTaskCancel now tasks reqId params).2 := by
  cases params with
  | none => exact hm
  | some p =>
    obtain ⟨pid⟩ := p
    by_cases h : strFalsy pid
    · simpa [handleTaskCancel, h] using hm
    · cases pid with
      | none => simp [strFalsy] at h
      | some tid =>
        simp only [handleTaskCancel, h]
        cases assocGet tasks tid with
        | none => exact hm
        | some t =>
          by_cases hc : t.status.state = .submitted ∨ t.status.state = .working <;>
            simp only [hc, if_pos, if_neg, ite_true, ite_false] <;>
            first
              | exact storeOk_modify hm (fun u _ => by simp [stateOk])
              | exact hm

theorem storeOk_runOps {tasks : TaskStore} (hm : StoreOk tasks)
    (ops : List ServerOp) : StoreOk (runOps tasks ops) := by
  induction ops generalizing tasks with
  | nil => exact hm
  | cons op rest ih =>
    have h1 : StoreOk (applyOp tasks op).2 := by
      cases op with
      | send now reqId agent params => exact storeOk_handleTaskSend hm now reqId agent params
      | get reqId params => simpa [applyOp, handleTaskGet_snd] using hm
      | cancel now reqId params => exact storeOk_handleTaskCancel hm now reqId params
    simpa [runOps] using ih h1

theorem setFailed_get_of_present {tasks : TaskStore} {tid : String} {t : Task}
    (h : assocGet tasks tid = some t) (now : String) :
    assocGet (setFailedIfPresent tasks tid now) tid =
      some { t with status := ⟨.failed, now⟩ } := by
  unfold setFailedIfPresent
  rw [h, assocGet_modify_self, h]
  rfl

/-- The task visible under the sent identifier after the completed-reply
updates of `handleTaskSend`. -/
theorem sendComplete_get_self (tasks : TaskStore) (tid aid : String)
    (sid : Option String) (msg respMsg : Message) (now : String) :
    assocGet (assocModify (assocModify (sendPrepare tasks tid aid sid msg now) tid
        (fun t => { t with status := ⟨.completed, now⟩ })) tid
        (fun t => { t with history := t.history ++ [respMsg] })) tid =
      some (match assocGet tasks tid with
        | none =>
            { id := tid, agentId := aid, sessionId := sid,
              status := ⟨.completed, now⟩, history := [msg, respMsg],
              artifacts := none }
        | some t =>
            { t with
              status := ⟨.completed, now⟩
              history := t.history ++ [msg, respMsg] }) := by
  rw [assocGet_modify_self, assocGet_modify_self, sendPrepare_get_self]
  cases assocGet tasks tid <;> simp

end Lemmas

section Claims

/-- C1, counterexample: the claim that no operation sequence ever produces
a `completed → working` transition is false. A first `tasks/send` for task
`t1` against the greeting agent leaves `t1` in `completed`; a second
`tasks/send` against the same record begins (lines 410-417 of
`src/server.ts`, embedded as `sendPrepare`) by moving the task to
`working` — the transition `completed → working` — and the operation is
accepted, ending again in `completed`. -/
theorem C1_counterexample :
    taskState (runOps [] [.send "T0" (.num 1) helloAgent (some sendParamsT1)]) "t1" =
      some .completed ∧
    taskState (sendPrepare (runOps [] [.send "T0" (.num 1) helloAgent (some sendParamsT1)])
      "t1" helloAgent.id none (userMsg "hi") "T1") "t1" = some .working ∧
    taskState (runOps [] [.send "T0" (.num 1) helloAgent (some sendParamsT1),
      .send "T1" (.num 2) helloAgent (some sendParamsT1)]) "t1" = some .completed :=
  ⟨by decide, by decide, by decide⟩

/-- C1 (amended): every reachable task's `status.state` is one of the six
enumerated lifecycle values (only `submitted`, `working`, `completed`,
`canceled`, `failed` are ever written); `tasks/cancel` changes a task's
state only from `submitted` or `working` and only to `canceled`; but
`tasks/send` re-enters `working` from any current state — including
terminal ones — and then ends the task in `completed` or `failed`, so a
send after completion does produce `completed → working`. -/
theorem C1_lifecycle_amended :
    (∀ ops : List ServerOp, ∀ kv ∈ runOps [] ops,
       kv.2.status.state ∈ [TaskState.submitted, TaskState.working,
         TaskState.inputRequired, TaskState.completed, TaskState.canceled,
         TaskState.failed]) ∧
    (∀ (now : String) (tasks : TaskStore) (reqId : RpcId)
       (params : Option TaskIdParams) (taskId : String),
       taskState (handleTaskCancel now tasks reqId params).2 taskId ≠
         taskState tasks taskId →
       (∃ t, assocGet tasks taskId = some t ∧
          (t.status.state = TaskState.submitted ∨
           t.status.state = TaskState.working)) ∧
       taskState (handleTaskCancel now tasks reqId params).2 taskId =
         some TaskState.canceled) ∧
    (∀ (now : String) (tasks : TaskStore) (reqId : RpcId) (agent : Agent)
       (taskId : String) (msg : Message) (sid : Option String), taskId ≠ "" →
       taskState (sendPrepare tasks taskId agent.id sid msg now) taskId =
         some TaskState.working ∧
       taskState (handleTaskSend now tasks reqId agent
           (some ⟨some taskId, some msg, sid⟩)).2 taskId ∈
         [some TaskState.completed, some TaskState.failed]) := by
  refine ⟨?_, ?_, ?_⟩
  · intro ops kv hkv
    have h := storeOk_runOps (fun kv hkv => by simp at hkv) ops kv hkv
    simp only [stateOk, List.mem_cons, List.not_mem_nil, or_false] at h ⊢
    tauto
  · intro now tasks reqId params tid hne
    cases params with
    | none => exact absurd rfl hne
    | some p =>
      obtain ⟨pid⟩ := p
      by_cases hf : strFalsy pid
      · rw [show (handleTaskCancel now tasks reqId (some ⟨pid⟩)).2 = tasks by
          simp [handleTaskCancel, hf]] at hne
        exact absurd rfl hne
      · cases pid with
        | none => simp [strFalsy] at hf
        | some tid0 =>
          cases hg : assocGet tasks tid0 with
          | none =>
            rw [show (handleTaskCancel now tasks reqId (some ⟨some tid0⟩)).2 = tasks by
              simp [handleTaskCancel, hf, hg]] at hne
            exact absurd rfl hne
          | some t =>
            by_cases hc : t.status.state = TaskState.submitted ∨
                t.status.state = TaskState.working
            · have hstore : (handleTaskCancel now tasks reqId (some ⟨some tid0⟩)).2 =
                  assocModify tasks tid0 (fun u => { u with status := ⟨.canceled, now⟩ }) := by
                simp [handleTaskCancel, hf, hg, hc]
              by_cases htid : tid = tid0
              · subst htid
                refine ⟨⟨t, hg, hc⟩, ?_⟩
                rw [hstore]
                simp [taskState, assocGet_modify_self, hg]
              · rw [hstore] at hne
                rw [show taskState (assocModify tasks tid0
                    (fun u => { u with status := ⟨.canceled, now⟩ })) tid =
                    taskState tasks tid from
                  by simp [taskState, assocGet_modify_ne _ _ _ _ htid]] at hne
                exact absurd rfl hne
            · rw [show (handleTaskCancel now tasks reqId (some ⟨some tid0⟩)).2 = tasks by
                simp [handleTaskCancel, hf, hg, hc]] at hne
              exact absurd rfl hne
  · intro now tasks reqId agent tid msg sid hid
    constructor
    · rw [taskState, sendPrepare_get_self]
      cases assocGet tasks tid <;> rfl
    · simp only [handleTaskSend, strFalsy, hid]
      simp only [decide_eq_true_eq, hid, or_self, if_false, reduceCtorEq,
        false_or, if_neg, ite_false]
      cases ho : agent.handlersSend { message := msg }
          { taskId := tid, agentId := agent.id, sessionId := sid } with
      | reply respMsg =>
        dsimp only
        have hD := sendComplete_get_self tasks tid agent.id sid msg respMsg now
        cases hp : respMsg.parts with
        | nil =>
          rw [taskState, setFailed_get_of_present hD now]
          simp
        | cons firstPart restParts =>
          rw [hD]
          rw [taskState, hD]
          cases assocGet tasks tid <;> simp
      | errorValue e =>
        dsimp only
        rw [taskState, assocGet_modify_self, sendPrepare_get_self]
        cases assocGet tasks tid <;> simp
      | thrown m =>
        dsimp only
        have hP := sendPrepare_get_self tasks tid agent.id sid msg now
        rw [taskState, setFailed_get_of_present hP now]
        simp

/-- C1 witness: the amended statement applied at concrete inputs — the
reachability conjunct at a one-send run, the cancel conjunct at a
submitted task, and the send conjunct at the greeting agent on an empty
store. -/
theorem C1_lifecycle_amended_witness :
    (TaskState.completed ∈ [TaskState.submitted, TaskState.working,
      TaskState.inputRequired, TaskState.completed, TaskState.canceled,
      TaskState.failed]) ∧
    (taskState (sendPrepare ([] : TaskStore) "t1" helloAgent.id none
        (userMsg "hi") "T0") "t1" = some TaskState.working ∧
      taskState (handleTaskSend "T0" [] (.num 1) helloAgent
        (some ⟨some "t1", some (userMsg "hi"), none⟩)).2 "t1" ∈
        [some TaskState.completed, some TaskState.failed]) := by
  constructor
  · exact C1_lifecycle_amended.1 [.send "T0" (.num 1) helloAgent (some sendParamsT1)]
      ("t1", Task.mk "t1" "agent://hello" none ⟨.completed, "T0"⟩
        [userMsg "hi", agentMsg "Hello there!"] none)
      (by rw [show runOps [] [.send "T0" (.num 1) helloAgent (some sendParamsT1)] =
          [("t1", Task.mk "t1" "agent://hello" none ⟨.completed, "T0"⟩
            [userMsg "hi", agentMsg "Hello there!"] none)] from rfl]
          exact List.mem_singleton.mpr rfl)
  · exact C1_lifecycle_amended.2.2 "T0" [] (.num 1) helloAgent "t1" (userMsg "hi")
      none (by decide)

/-- C2: for a `tasks/send` whose params carry both an unseen task
identifier and a message, the record the handler creates (`freshTask`) is
in state `submitted`, owned by the resolved agent, with empty history;
and when the agent's handler returns a reply message (here: one with a
first part, so that the artifact synthesis succeeds), the stored task
ends in `completed` with the reply appended to its history, and the
JSON-RPC result carries the input task id, the current status, the full
history, and an artifact wrapping the reply's first part's text. -/
theorem C2_send_creates_and_completes
    (now : String) (tasks : TaskStore) (reqId : RpcId) (agent : Agent)
    (taskId : String) (msg reply : Message) (firstPart : MessagePart)
    (restParts : List MessagePart) (sid : Option String)
    (hid : taskId ≠ "")
    (hnew : assocGet tasks taskId = none)
    (ho : agent.handlersSend ⟨msg⟩ ⟨taskId, agent.id, sid⟩ = .reply reply)
    (hparts : reply.parts = firstPart :: restParts) :
    (freshTask taskId agent.id sid now).status.state = TaskState.submitted ∧
    (freshTask taskId agent.id sid now).agentId = agent.id ∧
    (freshTask taskId agent.id sid now).history = [] ∧
    assocGet (handleTaskSend now tasks reqId agent
        (some ⟨some taskId, some msg, sid⟩)).2 taskId =
      some (Task.mk taskId agent.id sid ⟨.completed, now⟩ [msg, reply] none) ∧
    (handleTaskSend now tasks reqId agent
        (some ⟨some taskId, some msg, sid⟩)).1 =
      { id := reqId,
        result := some (Json.obj [
          ("id", Json.str taskId),
          ("status", Json.obj [("state", Json.str "completed"),
            ("timestamp", Json.str now)]),
          ("history", Json.arr [messageToJson msg, messageToJson reply]),
          ("artifacts", Json.arr [Json.obj [("parts", Json.arr [Json.obj
            ([("type", Json.str "text")] ++
             (match firstPart.text with
              | none => []
              | some s => [("text", Json.str s)]))])]])]) } := by
  refine ⟨rfl, rfl, rfl, ?_, ?_⟩ <;>
  · have hD := sendComplete_get_self tasks taskId agent.id sid msg reply now
    rw [hnew] at hD
    simp only [handleTaskSend, strFalsy, hid]
    simp only [decide_eq_true_eq, hid, or_self, if_false, reduceCtorEq,
      false_or, if_neg, ite_false]
    rw [ho]
    dsimp only
    rw [hparts]
    dsimp only
    rw [hD]
    simp [sendResult, statusToJson, TaskState.toWire, hD]

/-- C2 witness: the theorem applied to the greeting agent on an empty
store for task `t1`. -/
theorem C2_send_creates_and_completes_witness :
    assocGet (handleTaskSend "T0" [] (.num 1) helloAgent
        (some ⟨some "t1", some (userMsg "hi"), none⟩)).2 "t1" =
      some (Task.mk "t1" "agent://hello" none ⟨.completed, "T0"⟩
        [userMsg "hi", agentMsg "Hello there!"] none) ∧
    (handleTaskSend "T0" [] (.num 1) helloAgent
        (some ⟨some "t1", some (userMsg "hi"), none⟩)).1 =
      { id := .num 1,
        result := some (Json.obj [
          ("id", Json.str "t1"),
          ("status", Json.obj [("state", Json.str "completed"),
            ("timestamp", Json.str "T0")]),
          ("history", Json.arr [messageToJson (userMsg "hi"),
            messageToJson (agentMsg "Hello there!")]),
          ("artifacts", Json.arr [Json.obj [("parts", Json.arr [Json.obj
            [("type", Json.str "text"),
             ("text", Json.str "Hello there!")]])]])]) } := by
  have h := C2_send_creates_and_completes "T0" [] (.num 1) helloAgent "t1"
    (userMsg "hi") (agentMsg "Hello there!") (textPart "Hello there!") [] none
    (by decide) rfl rfl rfl
  exact ⟨h.2.2.2.1, h.2.2.2.2⟩

/-- C3: for every `tasks/cancel` call, a missing (or empty, hence falsy)
task identifier yields `InvalidParams` (-32602); an unknown identifier
yields `TaskNotFound` (-32001); a task whose state is neither `submitted`
nor `working` yields `TaskNotCancelable` (-32002) with the store — and so
the task's state — left unchanged; otherwise the task transitions to
`canceled` with the fresh timestamp `now` and the updated record is
returned as the result. -/
theorem C3_cancel_behavior (now : String) (tasks : TaskStore) (reqId : RpcId) :
    (handleTaskCancel now tasks reqId none =
      (createErrorResponse reqId INVALID_PARAMS "Missing task ID", tasks)) ∧
    (∀ p : TaskIdParams, strFalsy p.id →
      handleTaskCancel now tasks reqId (some p) =
        (createErrorResponse reqId INVALID_PARAMS "Missing task ID", tasks)) ∧
    (∀ taskId : String, taskId ≠ "" → assocGet tasks taskId = none →
      handleTaskCancel now tasks reqId (some ⟨some taskId⟩) =
        (createErrorResponse reqId TASK_NOT_FOUND "Task not found", tasks)) ∧
    (∀ (taskId : String) (t : Task), taskId ≠ "" →
      assocGet tasks taskId = some t →
      t.status.state ≠ TaskState.submitted →
      t.status.state ≠ TaskState.working →
      handleTaskCancel now tasks reqId (some ⟨some taskId⟩) =
        (createErrorResponse reqId TASK_NOT_CANCELABLE "Task cannot be canceled",
         tasks)) ∧
    (∀ (taskId : String) (t : Task), taskId ≠ "" →
      assocGet tasks taskId = some t →
      (t.status.state = TaskState.submitted ∨
       t.status.state = TaskState.working) →
      handleTaskCancel now tasks reqId (some ⟨some taskId⟩) =
        ({ id := reqId,
           result := some (taskToJson { t with status := ⟨.canceled, now⟩ }) },
         assocModify tasks taskId
           (fun u => { u with status := ⟨.canceled, now⟩ }))) := by
  refine ⟨rfl, ?_, ?_, ?_, ?_⟩
  · intro p hp
    simp [handleTaskCancel, hp]
  · intro taskId h1 h2
    simp [handleTaskCancel, strFalsy, h1, h2]
  · intro taskId t h1 h2 h3 h4
    simp [handleTaskCancel, strFalsy, h1, h2, h3, h4]
  · intro taskId t h1 h2 h3
    simp [handleTaskCancel, strFalsy, h1, h2, h3]

/-- C3 witness: cancel succeeds on a submitted task and is refused with
-32002, store untouched, on a completed task. -/
theorem C3_cancel_behavior_witness :
    handleTaskCancel "T1" [("t1", Task.mk "t1" "agent://hello" none
        ⟨.submitted, "T0"⟩ [] none)] (.num 3) (some ⟨some "t1"⟩) =
      ({ id := .num 3, result := some (taskToJson (Task.mk "t1" "agent://hello"
          none ⟨.canceled, "T1"⟩ [] none)) },
       [("t1", Task.mk "t1" "agent://hello" none ⟨.canceled, "T1"⟩ [] none)]) ∧
    handleTaskCancel "T1" [("t2", Task.mk "t2" "agent://hello" none
        ⟨.completed, "T0"⟩ [] none)] (.num 4) (some ⟨some "t2"⟩) =
      (createErrorResponse (.num 4) TASK_NOT_CANCELABLE "Task cannot be canceled",
       [("t2", Task.mk "t2" "agent://hello" none ⟨.completed, "T0"⟩ [] none)]) := by
  constructor
  · exact ((C3_cancel_behavior "T1" [("t1", Task.mk "t1" "agent://hello" none
        ⟨.submitted, "T0"⟩ [] none)] (.num 3)).2.2.2.2 "t1"
      (Task.mk "t1" "agent://hello" none ⟨.submitted, "T0"⟩ [] none)
      (by decide) rfl (Or.inl rfl)).trans (by rfl)
  · exact (C3_cancel_behavior "T1" [("t2", Task.mk "t2" "agent://hello" none
        ⟨.completed, "T0"⟩ [] none)] (.num 4)).2.2.2.1 "t2"
      (Task.mk "t2" "agent://hello" none ⟨.completed, "T0"⟩ [] none)
      (by decide) rfl (by decide) (by decide)

/-- C4: in every `tasks/send` call with well-formed parameters, the
inbound message is appended to the task's history before the agent
handler is invoked (after `sendPrepare`, the steps preceding the handler
call, the history already ends with the inbound message), and the final
history extends it with the handler's reply exactly when the handler
returned a reply — so the history never contains a reply that is not
preceded by the inbound message that triggered it. -/
theorem C4_history_order (now : String) (tasks : TaskStore) (reqId : RpcId)
    (agent : Agent) (taskId : String) (msg : Message) (sid : Option String)
    (hid : taskId ≠ "") :
    taskHistory (sendPrepare tasks taskId agent.id sid msg now) taskId =
      some (((assocGet tasks taskId).map Task.history).getD [] ++ [msg]) ∧
    taskHistory (handleTaskSend now tasks reqId agent
        (some ⟨some taskId, some msg, sid⟩)).2 taskId =
      some (((assocGet tasks taskId).map Task.history).getD [] ++ [msg] ++
        (match agent.handlersSend ⟨msg⟩ ⟨taskId, agent.id, sid⟩ with
         | .reply r => [r]
         | .errorValue _ => []
         | .thrown _ => [])) := by
  constructor
  · rw [taskHistory, sendPrepare_get_self]
    cases assocGet tasks taskId <;> simp
  · simp only [handleTaskSend, strFalsy, hid]
    simp only [decide_eq_true_eq, hid, or_self, if_false, reduceCtorEq,
      false_or, if_neg, ite_false]
    cases ho : agent.handlersSend { message := msg }
        { taskId := taskId, agentId := agent.id, sessionId := sid } with
    | reply respMsg =>
      dsimp only
      have hD := sendComplete_get_self tasks taskId agent.id sid msg respMsg now
      cases hp : respMsg.parts with
      | nil =>
        rw [taskHistory, setFailed_get_of_present hD now]
        cases assocGet tasks taskId <;> simp
      | cons firstPart restParts =>
        rw [hD]
        rw [taskHistory, hD]
        cases assocGet tasks taskId <;> simp
    | errorValue e =>
      dsimp only
      rw [taskHistory, assocGet_modify_self, sendPrepare_get_self]
      cases assocGet tasks taskId <;> simp
    | thrown m =>
      dsimp only
      have hP := sendPrepare_get_self tasks taskId agent.id sid msg now
      rw [taskHistory, setFailed_get_of_present hP now]
      cases assocGet tasks taskId <;> simp

/-- C4 witness: the theorem applied to the greeting agent on an empty
store. -/
theorem C4_history_order_witness :
    taskHistory (sendPrepare ([] : TaskStore) "t1" helloAgent.id none
        (userMsg "hi") "T0") "t1" = some [userMsg "hi"] ∧
    taskHistory (handleTaskSend "T0" [] (.num 1) helloAgent
        (some ⟨some "t1", some (userMsg "hi"), none⟩)).2 "t1" =
      some [userMsg "hi", agentMsg "Hello there!"] := by
  have h := C4_history_order "T0" [] (.num 1) helloAgent "t1" (userMsg "hi")
    none (by decide)
  exact ⟨h.1.trans (by rfl), h.2.trans (by rfl)⟩

/-- C5: for every `tasks/send` call with well-formed parameters in which
the agent handler throws (or its promise rejects), the task transitions
to `failed` and the caller receives `InternalError` (-32603) carrying the
exception message — the handler returns a JSON-RPC error response rather
than letting the exception escape; likewise a handler-reported error
value transitions the task to `failed` and yields an `InternalError`
carrying the handler's error text. -/
theorem C5_handler_failure (now : String) (tasks : TaskStore) (reqId : RpcId)
    (agent : Agent) (taskId : String) (msg : Message) (sid : Option String)
    (hid : taskId ≠ "") :
    (∀ m, agent.handlersSend ⟨msg⟩ ⟨taskId, agent.id, sid⟩ = .thrown m →
      (handleTaskSend now tasks reqId agent
          (some ⟨some taskId, some msg, sid⟩)).1 =
        createErrorResponse reqId INTERNAL_ERROR ("Internal error: " ++ m) ∧
      taskState (handleTaskSend now tasks reqId agent
          (some ⟨some taskId, some msg, sid⟩)).2 taskId =
        some TaskState.failed) ∧
    (∀ e, agent.handlersSend ⟨msg⟩ ⟨taskId, agent.id, sid⟩ = .errorValue e →
      (handleTaskSend now tasks reqId agent
          (some ⟨some taskId, some msg, sid⟩)).1 =
        createErrorResponse reqId INTERNAL_ERROR e ∧
      taskState (handleTaskSend now tasks reqId agent
          (some ⟨some taskId, some msg, sid⟩)).2 taskId =
        some TaskState.failed) := by
  constructor
  · intro m ho
    simp only [handleTaskSend, strFalsy, hid]
    simp only [decide_eq_true_eq, hid, or_self, if_false, reduceCtorEq,
      false_or, if_neg, ite_false]
    rw [ho]
    dsimp only
    have hP := sendPrepare_get_self tasks taskId agent.id sid msg now
    rw [taskState, setFailed_get_of_present hP now]
    exact ⟨rfl, rfl⟩
  · intro e ho
    simp only [handleTaskSend, strFalsy, hid]
    simp only [decide_eq_true_eq, hid, or_self, if_false, reduceCtorEq,
      false_or, if_neg, ite_false]
    rw [ho]
    dsimp only
    rw [taskState, assocGet_modify_self, sendPrepare_get_self]
    refine ⟨rfl, ?_⟩
    cases assocGet tasks taskId <;> rfl

/-- C5 witness: the theorem applied to a throwing agent and to an
error-reporting agent on an empty store. -/
theorem C5_handler_failure_witness :
    ((handleTaskSend "T0" [] (.num 1) throwAgent
        (some ⟨some "t1", some (userMsg "hi"), none⟩)).1 =
      createErrorResponse (.num 1) INTERNAL_ERROR "Internal error: kaboom" ∧
     taskState (handleTaskSend "T0" [] (.num 1) throwAgent
        (some ⟨some "t1", some (userMsg "hi"), none⟩)).2 "t1" =
      some TaskState.failed) ∧
    ((handleTaskSend "T0" [] (.num 2) errorAgent
        (some ⟨some "t2", some (userMsg "hi"), none⟩)).1 =
      createErrorResponse (.num 2) INTERNAL_ERROR "handler says no" ∧
     taskState (handleTaskSend "T0" [] (.num 2) errorAgent
        (some ⟨some "t2", some (userMsg "hi"), none⟩)).2 "t2" =
      some TaskState.failed) := by
  constructor
  · exact (C5_handler_failure "T0" [] (.num 1) throwAgent "t1" (userMsg "hi")
      none (by decide)).1 "kaboom" rfl
  · exact (C5_handler_failure "T0" [] (.num 2) errorAgent "t2" (userMsg "hi")
      none (by decide)).2 "handler says no" rfl

/-- C6, counterexample: the claim says the discovery document contains
exactly name, description, url, version, provider, capabilities,
authentication, default input and output modes, and skills — but the
generated card for a concrete agent also contains a `documentationUrl`
field, which is not in that list. -/
theorem C6_counterexample :
    (generateAgentCard "http://localhost:3000" helloAgent).keys =
      ["name", "description", "url", "version", "provider", "documentationUrl",
       "capabilities", "authentication", "defaultInputModes",
       "defaultOutputModes", "skills"] ∧
    "documentationUrl" ∉ (["name", "description", "url", "version", "provider",
       "capabilities", "authentication", "defaultInputModes",
       "defaultOutputModes", "skills"] : List String) :=
  ⟨by rfl, by decide⟩

/-- C6 (amended): for every agent and base address other than the bare
"/" (which the generator special-cases), the card contains exactly the
claimed fields plus `documentationUrl` (null when absent): the agent's
name; description null when absent; the URL `base ++ "/" ++ identifier`
with the identifier stripped of its `agent://` prefix; version defaulting
to "1.0.0"; provider null when absent; the three capability booleans each
defaulting to false; an authentication block listing schemes with
credentials always null (null when the agent declares none); default
input and output modes defaulting to `["text"]`; and skills defaulting
to the empty sequence. The generator is a pure function of the
descriptor and the base address. -/
theorem C6_card_amended (agent : Agent) (baseUrl : String)
    (hbase : baseUrl ≠ "/") :
    (generateAgentCard baseUrl agent).field "name" =
      some (Json.str agent.name) ∧
    (generateAgentCard baseUrl agent).field "description" =
      some (match agent.description with
        | none => Json.null
        | some d => Json.str d) ∧
    (generateAgentCard baseUrl agent).field "url" =
      some (Json.str (baseUrl ++ "/" ++ replaceFirst agent.id "agent://")) ∧
    (generateAgentCard baseUrl agent).field "version" =
      some (Json.str (agent.version.getD "1.0.0")) ∧
    (generateAgentCard baseUrl agent).field "provider" =
      some (agent.provider.getD Json.null) ∧
    (generateAgentCard baseUrl agent).field "documentationUrl" =
      some (match agent.documentationUrl with
        | none => Json.null
        | some d => Json.str d) ∧
    (generateAgentCard baseUrl agent).field "capabilities" =
      some (Json.obj [
        ("streaming", Json.bool
          ((agent.capabilities.bind Capabilities.streaming).getD false)),
        ("pushNotifications", Json.bool
          ((agent.capabilities.bind Capabilities.pushNotifications).getD false)),
        ("stateTransitionHistory", Json.bool
          ((agent.capabilities.bind Capabilities.stateTransitionHistory).getD false))]) ∧
    (generateAgentCard baseUrl agent).field "authentication" =
      some (match agent.authentication with
        | none => Json.null
        | some a => Json.obj [("schemes", Json.arr (a.schemes.map Json.str)),
            ("credentials", Json.null)]) ∧
    (generateAgentCard baseUrl agent).field "defaultInputModes" =
      some (Json.arr ((agent.defaultInputModes.getD ["text"]).map Json.str)) ∧
    (generateAgentCard baseUrl agent).field "defaultOutputModes" =
      some (Json.arr ((agent.defaultOutputModes.getD ["text"]).map Json.str)) ∧
    (generateAgentCard baseUrl agent).field "skills" =
      some (Json.arr (agent.skills.getD [])) ∧
    (generateAgentCard baseUrl agent).keys =
      ["name", "description", "url", "version", "provider", "documentationUrl",
       "capabilities", "authentication", "defaultInputModes",
       "defaultOutputModes", "skills"] := by
  refine ⟨?_, ?_, ?_, ?_, ?_, ?_, ?_, ?_, ?_, ?_, ?_, ?_⟩ <;>
    simp [generateAgentCard, Json.field, Json.keys, hbase]

/-- C6 witness: the amended statement applied to the greeting agent at a
concrete base address. -/
theorem C6_card_amended_witness :
    (generateAgentCard "http://localhost:3000" helloAgent).field "name" =
      some (Json.str helloAgent.name) ∧
    (generateAgentCard "http://localhost:3000" helloAgent).field "url" =
      some (Json.str ("http://localhost:3000" ++ "/" ++
        replaceFirst helloAgent.id "agent://")) ∧
    (generateAgentCard "http://localhost:3000" helloAgent).field "skills" =
      some (Json.arr (helloAgent.skills.getD [])) := by
  have h := C6_card_amended helloAgent "http://localhost:3000" (by decide)
  exact ⟨h.1, h.2.2.1, h.2.2.2.2.2.2.2.2.2.2.1⟩

/-- C7, counterexample: with a non-empty registry, an explicit
`x-agent-id` header that matches no registered identifier does not fail
with AgentNotFound — resolution silently falls back to the
first-registered agent. -/
theorem C7_counterexample :
    resolveAgent [("agent://a", agentA')] "/x" (some "nope") = .ok agentA' ∧
    resolveAgent [("agent://a", agentA')] "/x" (some "nope") ≠
      ResolveResult.notFound :=
  ⟨rfl, fun h => by
    rw [show resolveAgent [("agent://a", agentA')] "/x" (some "nope") =
      .ok agentA' from rfl] at h
    exact ResolveResult.noConfusion h⟩

/-- An identifier produced by the URL-path extraction step is never the
empty string: it is a registry key whose scheme-stripped form equals a
non-empty path segment. -/
theorem extractAgentId_ne_empty (agents : AgentRegistry) (url : String)
    (k : String) (h : extractAgentId agents url = some k) : k ≠ "" := by
  unfold extractAgentId at h
  by_cases he : isAgentEndpoint agents url
  · rw [if_pos he] at h
    cases hp : pathParts url with
    | nil => rw [hp] at h; exact absurd h (by simp)
    | cons seg rest =>
      rw [hp] at h
      have hseg : seg ≠ "" := by
        have hmem : seg ∈ pathParts url := by
          rw [hp]; exact List.mem_cons_self _ _
        have := List.of_mem_filter hmem
        simpa using this
      have hfind := List.find?_some h
      intro hk
      subst hk
      have hrep : replaceFirst "" "agent://" = seg := by simpa using hfind
      rw [show replaceFirst "" "agent://" = "" from rfl] at hrep
      exact hseg hrep.symm
  · rw [if_neg he] at h
    exact absurd h (by simp)

/-- C7 (amended): agent resolution fails with NoAgentsAvailable exactly
when the registry is empty and no (non-empty) explicit header identifier
is supplied, and with AgentNotFound when the registry is empty but a
header identifier is supplied; when the registry is non-empty resolution
never fails: a URL path segment matching a registered identifier
(scheme-stripped) wins, otherwise a header equal to a registered
identifier wins, otherwise resolution silently falls back to the
first-registered agent — including when the supplied explicit identifier
matches nothing. -/
theorem C7_resolution_amended (reg : AgentRegistry) (url : String)
    (hdr : Option String) :
    (reg = [] → strFalsy hdr = true → resolveAgent reg url hdr = .noAgents) ∧
    (reg = [] → strFalsy hdr = false → resolveAgent reg url hdr = .notFound) ∧
    (∀ (k : String) (a : Agent), extractAgentId reg url = some k →
      assocGet reg k = some a → resolveAgent reg url hdr = .ok a) ∧
    (∀ (h : String) (a : Agent), extractAgentId reg url = none →
      hdr = some h → h ≠ "" → assocGet reg h = some a →
      resolveAgent reg url hdr = .ok a) ∧
    (∀ (k0 : String) (a0 : Agent) (rest : AgentRegistry) (h : String),
      reg = (k0, a0) :: rest → extractAgentId reg url = none →
      hdr = some h → h ≠ "" → assocGet reg h = none →
      resolveAgent reg url hdr = .ok a0) ∧
    (∀ (k0 : String) (a0 : Agent) (rest : AgentRegistry),
      reg = (k0, a0) :: rest → k0 ≠ "" → extractAgentId reg url = none →
      strFalsy hdr = true → resolveAgent reg url hdr = .ok a0) := by
  refine ⟨?_, ?_, ?_, ?_, ?_, ?_⟩
  · intro h1 h2
    subst h1
    have hex : extractAgentId [] url = none := by
      unfold extractAgentId isAgentEndpoint
      cases pathParts url <;> simp
    cases hdr with
    | none => simp [resolveAgent, hex, orFalsy, strFalsy]
    | some h =>
      have he : h = "" := by simpa [strFalsy] using h2
      subst he
      simp [resolveAgent, hex, orFalsy, strFalsy]
  · intro h1 h2
    subst h1
    have hex : extractAgentId [] url = none := by
      unfold extractAgentId isAgentEndpoint
      cases pathParts url <;> simp
    cases hdr with
    | none => simp [strFalsy] at h2
    | some h =>
      have hne : h ≠ "" := by simpa [strFalsy] using h2
      simp [resolveAgent, hex, orFalsy, strFalsy, hne, assocGet]
  · intro k a hex hget
    have hk : k ≠ "" := extractAgentId_ne_empty reg url k hex
    simp [resolveAgent, hex, orFalsy, strFalsy, hk, hget]
  · intro h a hex hhdr hne hget
    subst hhdr
    simp [resolveAgent, hex, orFalsy, strFalsy, hne, hget]
  · intro k0 a0 rest h hreg hex hhdr hne hget
    subst hhdr
    subst hreg
    simp [resolveAgent, hex, orFalsy, strFalsy, hne, hget]
  · intro k0 a0 rest hreg hk0 hex hfalsy
    subst hreg
    cases hdr with
    | none => simp [resolveAgent, hex, orFalsy, strFalsy, hk0, assocGet]
    | some h =>
      have he : h = "" := by simpa [strFalsy] using hfalsy
      subst he
      simp [resolveAgent, hex, orFalsy, strFalsy, hk0, assocGet]

/-- C7 witness: the amended statement applied at concrete registries —
empty registry without and with a header, a URL-path match, and the
silent header fallback. -/
theorem C7_resolution_amended_witness :
    resolveAgent [] "/x" none = .noAgents ∧
    resolveAgent [] "/x" (some "nope") = .notFound ∧
    resolveAgent [("agent://a", agentA'), ("agent://b", agentB')] "/b/rpc"
      none = .ok agentB' ∧
    resolveAgent [("agent://a", agentA')] "/x" (some "agent://a") =
      .ok agentA' ∧
    resolveAgent [("agent://a", agentA')] "/x" (some "nope") = .ok agentA' := by
  refine ⟨?_, ?_, ?_, ?_, ?_⟩
  · exact (C7_resolution_amended [] "/x" none).1 rfl rfl
  · exact (C7_resolution_amended [] "/x" (some "nope")).2.1 rfl rfl
  · exact (C7_resolution_amended [("agent://a", agentA'), ("agent://b", agentB')]
      "/b/rpc" none).2.2.1 "agent://b" agentB' rfl rfl
  · exact (C7_resolution_amended [("agent://a", agentA')] "/x"
      (some "agent://a")).2.2.2.1 "agent://a" agentA' rfl rfl (by decide) rfl
  · exact (C7_resolution_amended [("agent://a", agentA')] "/x"
      (some "nope")).2.2.2.2.1 "agent://a" agentA' [] "nope" rfl rfl rfl
      (by decide) rfl

/-- C8, counterexample: with two agents registered under the bare
identifiers "a" and "b" (each equal to its scheme-stripped form), the
discovery request `/a/.well-known/agent.json` does not return agent "a"'s
document — it returns 404 Agent not found, because both lookups in
`handleAgentCard` prepend `agent://` to the path segment and never try
the bare identifier. -/
theorem C8_counterexample :
    handleAgentCard [("a", agentA), ("b", agentB)] "http://localhost:3000"
        "/a/.well-known/agent.json" =
      ⟨404, Json.obj [("error", Json.str "Agent not found")]⟩ := by rfl

/-- C8 (amended): for every discovery request whose URL matches
`/seg/.well-known/agent.json`, the target agent is the one registered
under the identifier `"agent://" ++ seg` — so only scheme-prefixed
registrations are discoverable by path, and an identifier that equals
the segment only after stripping (such as a bare registration) is not
found; an unmatched lookup yields 404 Agent not found. -/
theorem C8_card_lookup_amended (agents : AgentRegistry)
    (baseUrl url seg : String) (hmatch : matchAgentCardPath url = some seg) :
    handleAgentCard agents baseUrl url =
      (match assocGet agents ("agent://" ++ seg) with
       | some agent => ⟨200, generateAgentCard baseUrl agent⟩
       | none => ⟨404, Json.obj [("error", Json.str "Agent not found")]⟩) := by
  have hne : url ≠ "/.well-known/agent.json" := by
    intro h
    rw [h] at hmatch
    rw [show matchAgentCardPath "/.well-known/agent.json" = none from rfl]
      at hmatch
    exact Option.noConfusion hmatch
  unfold handleAgentCard
  rw [if_neg hne, hmatch]
  dsimp only
  cases assocGet agents ("agent://" ++ seg) <;> rfl

/-- C8 witness: with `agent://a` and `agent://b` registered, the request
for `/a/.well-known/agent.json` serves agent "a"'s card (name "Agent A"),
not "b"'s. -/
theorem C8_card_lookup_amended_witness :
    handleAgentCard [("agent://a", agentA'), ("agent://b", agentB')]
        "http://localhost:3000" "/a/.well-known/agent.json" =
      ⟨200, generateAgentCard "http://localhost:3000" agentA'⟩ ∧
    (generateAgentCard "http://localhost:3000" agentA').field "name" =
      some (Json.str "Agent A") := by
  constructor
  · exact (C8_card_lookup_amended [("agent://a", agentA'), ("agent://b", agentB')]
      "http://localhost:3000" "/a/.well-known/agent.json" "a" rfl).trans (by rfl)
  · rfl

/-- C9: evaluating the registration step of `loadAgents` at two
descriptors that share the identifier `agent://a` shows the second
snapshot silently replacing the first with no error reported — the code
contradicts the documented register contract (fail with
DuplicateAgentError; never replace an existing entry), which the spec
itself flags as a bug of the reference behavior. -/
theorem C9_duplicate_overwrite :
    loadAgentsFrom [] [agentA', { agentA' with name := "Replacement" }] =
      [("agent://a", { agentA' with name := "Replacement" })] ∧
    (assocGet (loadAgentsFrom []
        [agentA', { agentA' with name := "Replacement" }])
      "agent://a").map Agent.name = some "Replacement" :=
  ⟨rfl, rfl⟩

/-- C10: when the agent handler of a well-formed `tasks/send` call
returns a reply message whose parts list is empty, the artifact synthesis
dereference of `parts[0].text` throws, the exception is caught by the
handler's try/catch, the task ends in state `failed`, and the caller
receives `InternalError` (-32603) — even though the handler succeeded and
its reply has already been appended to the task's history. -/
theorem C10_empty_reply_artifact (now : String) (tasks : TaskStore)
    (reqId : RpcId) (agent : Agent) (taskId : String) (msg reply : Message)
    (sid : Option String)
    (hid : taskId ≠ "")
    (ho : agent.handlersSend ⟨msg⟩ ⟨taskId, agent.id, sid⟩ = .reply reply)
    (hparts : reply.parts = []) :
    (handleTaskSend now tasks reqId agent
        (some ⟨some taskId, some msg, sid⟩)).1 =
      createErrorResponse reqId INTERNAL_ERROR
        ("Internal error: " ++ partsTextTypeError) ∧
    taskState (handleTaskSend now tasks reqId agent
        (some ⟨some taskId, some msg, sid⟩)).2 taskId =
      some TaskState.failed ∧
    taskHistory (handleTaskSend now tasks reqId agent
        (some ⟨some taskId, some msg, sid⟩)).2 taskId =
      some (((assocGet tasks taskId).map Task.history).getD [] ++
        [msg, reply]) := by
  have hD := sendComplete_get_self tasks taskId agent.id sid msg reply now
  refine ⟨?_, ?_, ?_⟩
  · simp only [handleTaskSend, strFalsy, hid]
    simp only [decide_eq_true_eq, hid, or_self, if_false, reduceCtorEq,
      false_or, if_neg, ite_false]
    rw [ho]
    dsimp only
    rw [hparts]
  · simp only [handleTaskSend, strFalsy, hid]
    simp only [decide_eq_true_eq, hid, or_self, if_false, reduceCtorEq,
      false_or, if_neg, ite_false]
    rw [ho]
    dsimp only
    rw [hparts]
    dsimp only
    rw [taskState, setFailed_get_of_present hD now]
    cases assocGet tasks taskId <;> rfl
  · simp only [handleTaskSend, strFalsy, hid]
    simp only [decide_eq_true_eq, hid, or_self, if_false, reduceCtorEq,
      false_or, if_neg, ite_false]
    rw [ho]
    dsimp only
    rw [hparts]
    dsimp only
    rw [taskHistory, setFailed_get_of_present hD now]
    cases assocGet tasks taskId <;> simp

/-- C10 witness: the theorem applied to an agent replying with an empty
parts array, on an empty store. -/
theorem C10_empty_reply_artifact_witness :
    (handleTaskSend "T0" [] (.num 1) emptyReplyAgent
        (some ⟨some "t1", some (userMsg "hi"), none⟩)).1 =
      createErrorResponse (.num 1) INTERNAL_ERROR
        ("Internal error: " ++ partsTextTypeError) ∧
    taskState (handleTaskSend "T0" [] (.num 1) emptyReplyAgent
        (some ⟨some "t1", some (userMsg "hi"), none⟩)).2 "t1" =
      some TaskState.failed ∧
    taskHistory (handleTaskSend "T0" [] (.num 1) emptyReplyAgent
        (some ⟨some "t1", some (userMsg "hi"), none⟩)).2 "t1" =
      some [userMsg "hi", Message.mk "agent" []] := by
  have h := C10_empty_reply_artifact "T0" [] (.num 1) emptyReplyAgent "t1"
    (userMsg "hi") (Message.mk "agent" []) none (by decide) rfl rfl
  exact ⟨h.1, h.2.1, h.2.2.trans (by rfl)⟩

end Claims

end Agnes
